import Mathlib

/-!
Shallow embedding of the LifeLogger aggregation / insight pipeline
(`functions/src/data-capture-engine.ts` and the AI-insight-engine module):
the Cognitive Mirror Builder, the Daily Aggregator, the Forecast Engine and
the Pattern Detectors, together with theorems settling the frozen claims
about them.  JavaScript numbers are modelled as rationals (`ℚ`); `Math.min`,
`Math.max` and `Math.round` become `min`, `max` and `round` (both round
half-up); Firestore snapshots that may be empty become `Option`/`List`
parameters.
-/

namespace LifeLogger

/-- Fields of a `deviceSignals` document read by `generateCognitiveMirror`. -/
structure DeviceSignal where
  notificationCount : ℚ
  screenTimeMinutes : ℚ
deriving DecidableEq

/-- Fields of a `shadowCognition` document read by `generateCognitiveMirror`. -/
structure ShadowCognition where
  frictionTaps : ℚ
deriving DecidableEq

/-- Fields of a `rhythmMap` document read by `generateCognitiveMirror`. -/
structure RhythmRecord where
  rhythmState : String
deriving DecidableEq

/-- Fields of a `voiceEvents` document read by `generateCognitiveMirror`. -/
structure VoiceEvent where
  sentimentScore : ℚ
deriving DecidableEq

/-- The `cognitiveMirror` record written by `generateCognitiveMirror`
(fields that are computed; ids and timestamps are omitted). -/
structure CognitiveMirror where
  moodScore : ℤ
  stressIndex : ℤ
  highlightInsights : List String
  energyLevel : ℚ
  socialConnection : ℚ
  purposeAlignment : ℤ
deriving DecidableEq

/-- Mood score from voice events: neutral baseline 50, else
`max(0, min(100, 50 + (totalSentiment / count) * 50))`. -/
def moodScoreOf (voiceEvents : List VoiceEvent) : ℚ :=
  if voiceEvents.isEmpty then 50
  else
    let totalSentiment := (voiceEvents.map (·.sentimentScore)).sum
    max 0 (min 100 (50 + totalSentiment / (voiceEvents.length : ℚ) * 50))

/-- Stress index from device activity and shadow cognition: baseline 30,
plus `min(40, notificationCount*2) + min(30, screenTimeMinutes/10)` when a
device-signal document exists, plus `min(30, frictionTaps*3)` when a
shadow-cognition document exists, finally `Math.min(100, ·)`. -/
def stressIndexRaw (device : Option DeviceSignal) (shadow : Option ShadowCognition) : ℚ :=
  let s0 : ℚ := 30
  let s1 : ℚ :=
    match device with
    | none => s0
    | some d => s0 + min 40 (d.notificationCount * 2) + min 30 (d.screenTimeMinutes / 10)
  let s2 : ℚ :=
    match shadow with
    | none => s1
    | some sh => s1 + min 30 (sh.frictionTaps * 3)
  min 100 s2

/-- The ordered insight list: mood band, then stress band, then rhythm state. -/
def highlightInsightsOf (moodScore stressIndex : ℚ) (rhythm : Option RhythmRecord) :
    List String :=
  (if moodScore > 70 then ["You had a particularly positive day with uplifting conversations"]
   else if moodScore < 30 then ["Today felt heavy - your voice carried more tension than usual"]
   else [])
  ++ (if stressIndex > 70 then ["High digital activity and friction suggests elevated stress"]
      else if stressIndex < 30 then ["You maintained good digital balance today"]
      else [])
  ++ (match rhythm with
      | none => []
      | some r =>
        if r.rhythmState = "Stable" then ["Your sleep and movement patterns were well-balanced"]
        else if r.rhythmState = "Off-Rhythm" then ["Your natural rhythms were disrupted today"]
        else [])

/-- Per-user body of the `generateCognitiveMirror` scheduled job: the record
written to the `cognitiveMirror` collection.  Note that `moodScore` and
`stressIndex` are stored rounded, while `energyLevel` is `100` minus the
unrounded stress index and `purposeAlignment` rounds the average of the
unrounded mood score and `100 - stressIndex`. -/
def generateCognitiveMirrorForUser (voiceEvents : List VoiceEvent)
    (device : Option DeviceSignal) (shadow : Option ShadowCognition)
    (rhythm : Option RhythmRecord) : CognitiveMirror :=
  let moodScore := moodScoreOf voiceEvents
  let stressIndex := stressIndexRaw device shadow
  { moodScore := round moodScore
    stressIndex := round stressIndex
    highlightInsights := highlightInsightsOf moodScore stressIndex rhythm
    energyLevel := 100 - stressIndex
    socialConnection := min 100 ((voiceEvents.length : ℚ) * 10)
    purposeAlignment := round ((moodScore + (100 - stressIndex)) / 2) }

/-- C1 counterexample: with `notificationCount = -20` (and the other stress
inputs `0`) the computed stress index is `-10`, outside `[0,100]`: the code
applies only the upper cap `Math.min(100, ·)`, never a lower clamp at `0`. -/
theorem stressIndex_not_clamped_below :
    stressIndexRaw (some ⟨-20, 0⟩) (some ⟨0⟩) = -10 ∧
      ¬ (0 ≤ stressIndexRaw (some ⟨-20, 0⟩) (some ⟨0⟩)) := by
  constructor
  · show min (100 : ℚ) (30 + min 40 (-20 * 2) + min 30 (0 / 10) + min 30 (0 * 3)) = -10
    norm_num
  · show ¬ (0 ≤ min (100 : ℚ) (30 + min 40 (-20 * 2) + min 30 (0 / 10) + min 30 (0 * 3)))
    norm_num

/-- C1 amended: each of the three additive stress terms is independently
capped before summing and the total after adding the baseline 30 is capped
above at 100; when the three inputs are nonnegative the result lies in
`[0,100]` (indeed in `[30,100]`). -/
theorem stressIndex_caps_and_range (n s f : ℚ)
    (hn : 0 ≤ n) (hs : 0 ≤ s) (hf : 0 ≤ f) :
    stressIndexRaw (some ⟨n, s⟩) (some ⟨f⟩)
        = min 100 (30 + min 40 (n * 2) + min 30 (s / 10) + min 30 (f * 3)) ∧
      0 ≤ stressIndexRaw (some ⟨n, s⟩) (some ⟨f⟩) ∧
      stressIndexRaw (some ⟨n, s⟩) (some ⟨f⟩) ≤ 100 := by
  have h1 : (0 : ℚ) ≤ min 40 (n * 2) := le_min (by norm_num) (by positivity)
  have h2 : (0 : ℚ) ≤ min 30 (s / 10) := le_min (by norm_num) (by positivity)
  have h3 : (0 : ℚ) ≤ min 30 (f * 3) := le_min (by norm_num) (by positivity)
  refine ⟨rfl, ?_, ?_⟩
  · exact le_min (by norm_num) (by linarith)
  · exact min_le_left _ _

/-- Witness for `stressIndex_caps_and_range` at `n = 5`, `s = 120`, `f = 2`. -/
theorem stressIndex_caps_and_range_witness :
    stressIndexRaw (some ⟨5, 120⟩) (some ⟨2⟩)
        = min 100 (30 + min 40 (5 * 2) + min 30 (120 / 10) + min 30 (2 * 3)) ∧
      0 ≤ stressIndexRaw (some ⟨5, 120⟩) (some ⟨2⟩) ∧
      stressIndexRaw (some ⟨5, 120⟩) (some ⟨2⟩) ≤ 100 :=
  stressIndex_caps_and_range 5 120 2 (by norm_num) (by norm_num) (by norm_num)

/-- The stress insight segment never contains the low-stress template when
the stress index is at least 30. -/
theorem balance_insight_not_mem (mood stress : ℚ) (r : Option RhythmRecord)
    (h : ¬ stress < 30) :
    "You maintained good digital balance today" ∉ highlightInsightsOf mood stress r := by
  unfold highlightInsightsOf
  intro hmem
  simp only [List.mem_append] at hmem
  rcases hmem with (h1 | h2) | h3
  · split_ifs at h1 <;> simp_all
  · by_cases hh1 : (70 : ℚ) < stress
    · rw [if_pos hh1] at h2; simp at h2
    · rw [if_neg hh1] at h2
      by_cases hh2 : stress < 30
      · exact h hh2
      · rw [if_neg hh2] at h2; simp at h2
  · rcases r with _ | rr
    · simp at h3
    · have h3' : "You maintained good digital balance today" ∈
          (if rr.rhythmState = "Stable"
            then ["Your sleep and movement patterns were well-balanced"]
            else if rr.rhythmState = "Off-Rhythm"
              then ["Your natural rhythms were disrupted today"]
              else []) := h3
      split_ifs at h3' <;> simp_all

/-- C10: whenever the stress inputs present in the device-signal and
shadow-cognition documents are nonnegative, the computed stress index lies
in `[30, 100]` (only the baseline 30 bounds it below — there is no lower
clamp), and consequently the `stressIndex < 30` insight
"You maintained good digital balance today" is never appended. -/
theorem stressIndex_band_invariant (v : List VoiceEvent)
    (d : Option DeviceSignal) (s : Option ShadowCognition) (r : Option RhythmRecord)
    (hd : ∀ x ∈ d, 0 ≤ x.notificationCount ∧ 0 ≤ x.screenTimeMinutes)
    (hs : ∀ x ∈ s, 0 ≤ x.frictionTaps) :
    30 ≤ stressIndexRaw d s ∧ stressIndexRaw d s ≤ 100 ∧
      "You maintained good digital balance today"
        ∉ (generateCognitiveMirrorForUser v d s r).highlightInsights := by
  have h30 : 30 ≤ stressIndexRaw d s := by
    match d, s with
    | none, none =>
      show (30 : ℚ) ≤ min 100 30
      norm_num
    | none, some sh =>
      have hf := hs sh rfl
      have h3 : (0 : ℚ) ≤ min 30 (sh.frictionTaps * 3) :=
        le_min (by norm_num) (by positivity)
      show (30 : ℚ) ≤ min 100 (30 + min 30 (sh.frictionTaps * 3))
      exact le_min (by norm_num) (by linarith)
    | some dd, none =>
      obtain ⟨hn, hsc⟩ := hd dd rfl
      have h1 : (0 : ℚ) ≤ min 40 (dd.notificationCount * 2) :=
        le_min (by norm_num) (by positivity)
      have h2 : (0 : ℚ) ≤ min 30 (dd.screenTimeMinutes / 10) :=
        le_min (by norm_num) (by positivity)
      show (30 : ℚ) ≤ min 100
        (30 + min 40 (dd.notificationCount * 2) + min 30 (dd.screenTimeMinutes / 10))
      exact le_min (by norm_num) (by linarith)
    | some dd, some sh =>
      obtain ⟨hn, hsc⟩ := hd dd rfl
      have hf := hs sh rfl
      have h1 : (0 : ℚ) ≤ min 40 (dd.notificationCount * 2) :=
        le_min (by norm_num) (by positivity)
      have h2 : (0 : ℚ) ≤ min 30 (dd.screenTimeMinutes / 10) :=
        le_min (by norm_num) (by positivity)
      have h3 : (0 : ℚ) ≤ min 30 (sh.frictionTaps * 3) :=
        le_min (by norm_num) (by positivity)
      show (30 : ℚ) ≤ min 100
        (30 + min 40 (dd.notificationCount * 2) + min 30 (dd.screenTimeMinutes / 10)
          + min 30 (sh.frictionTaps * 3))
      exact le_min (by norm_num) (by linarith)
  have h100 : stressIndexRaw d s ≤ 100 := by
    match d, s with
    | none, none => exact min_le_left _ _
    | none, some sh => exact min_le_left _ _
    | some dd, none => exact min_le_left _ _
    | some dd, some sh => exact min_le_left _ _
  exact ⟨h30, h100, balance_insight_not_mem _ _ _ (not_lt.mpr h30)⟩

/-- Witness for `stressIndex_band_invariant` on concrete nonnegative inputs. -/
theorem stressIndex_band_invariant_witness :
    30 ≤ stressIndexRaw (some ⟨3, 50⟩) (some ⟨1⟩) ∧
      stressIndexRaw (some ⟨3, 50⟩) (some ⟨1⟩) ≤ 100 ∧
      "You maintained good digital balance today"
        ∉ (generateCognitiveMirrorForUser [⟨1⟩] (some ⟨3, 50⟩) (some ⟨1⟩)
            (some ⟨"Stable"⟩)).highlightInsights :=
  stressIndex_band_invariant [⟨1⟩] (some ⟨3, 50⟩) (some ⟨1⟩) (some ⟨"Stable"⟩)
    (by intro x hx; cases hx; constructor <;> norm_num)
    (by intro x hx; cases hx; norm_num)

/-- C7 counterexample: with no voice events, `screenTimeMinutes = 15` and all
other stress inputs zero, the unrounded stress index is `31.5`, the stored
`stressIndex` is `round 31.5 = 32`, and the stored `energyLevel` is
`100 - 31.5 = 68.5 ≠ 100 - 32`: the stored energy level is not the exact
inverse of the stored (rounded) stress index. -/
theorem energyLevel_not_inverse_of_stored_stress :
    (generateCognitiveMirrorForUser [] (some ⟨0, 15⟩) (some ⟨0⟩) none).energyLevel
      ≠ 100 -
        ((generateCognitiveMirrorForUser [] (some ⟨0, 15⟩) (some ⟨0⟩) none).stressIndex : ℚ) := by
  have h1 : (generateCognitiveMirrorForUser [] (some ⟨0, 15⟩) (some ⟨0⟩) none).energyLevel
      = 100 - min 100 (30 + min 40 (0 * 2) + min 30 (15 / 10) + min 30 (0 * 3)) := rfl
  have h2 : ((generateCognitiveMirrorForUser [] (some ⟨0, 15⟩) (some ⟨0⟩) none).stressIndex : ℚ)
      = ((round (min (100 : ℚ) (30 + min 40 (0 * 2) + min 30 (15 / 10) + min 30 (0 * 3))) : ℤ) : ℚ) :=
    rfl
  rw [h1, h2]
  norm_num [min_def, round_eq]

/-- C7 amended: the stored `energyLevel` is `100` minus the *unrounded*
stress index, and `purposeAlignment` is `round((unrounded moodScore +
energyLevel)/2)`; the relation `energyLevel = 100 - storedStressIndex` holds
exactly when the unrounded stress index is already an integer. -/
theorem mirror_energy_purpose (v : List VoiceEvent) (d : Option DeviceSignal)
    (s : Option ShadowCognition) (r : Option RhythmRecord) :
    (generateCognitiveMirrorForUser v d s r).energyLevel = 100 - stressIndexRaw d s
    ∧ (generateCognitiveMirrorForUser v d s r).purposeAlignment
        = round ((moodScoreOf v + (generateCognitiveMirrorForUser v d s r).energyLevel) / 2)
    ∧ (stressIndexRaw d s = ((round (stressIndexRaw d s) : ℤ) : ℚ) →
        (generateCognitiveMirrorForUser v d s r).energyLevel
          = 100 - ((generateCognitiveMirrorForUser v d s r).stressIndex : ℚ)) := by
  refine ⟨rfl, rfl, fun h => ?_⟩
  show 100 - stressIndexRaw d s = 100 - ((round (stressIndexRaw d s) : ℤ) : ℚ)
  rw [← h]

/-- Witness for `mirror_energy_purpose` at inputs with an integral stress
index (`30 + 2 + 2 + 3 = 37`). -/
theorem mirror_energy_purpose_witness :
    stressIndexRaw (some ⟨1, 20⟩) (some ⟨1⟩)
        = ((round (stressIndexRaw (some ⟨1, 20⟩) (some ⟨1⟩)) : ℤ) : ℚ) ∧
      (generateCognitiveMirrorForUser [] (some ⟨1, 20⟩) (some ⟨1⟩) none).energyLevel
        = 100 -
          ((generateCognitiveMirrorForUser [] (some ⟨1, 20⟩) (some ⟨1⟩) none).stressIndex : ℚ) := by
  have he : stressIndexRaw (some ⟨1, 20⟩) (some ⟨1⟩) = 37 := by
    show min (100 : ℚ) (30 + min 40 (1 * 2) + min 30 (20 / 10) + min 30 (1 * 3)) = 37
    norm_num [min_def]
  have hi : stressIndexRaw (some ⟨1, 20⟩) (some ⟨1⟩)
      = ((round (stressIndexRaw (some ⟨1, 20⟩) (some ⟨1⟩)) : ℤ) : ℚ) := by
    rw [he]; norm_num [round_eq]
  exact ⟨hi, (mirror_energy_purpose [] (some ⟨1, 20⟩) (some ⟨1⟩) none).2.2 hi⟩

/-- A `telemetryEvents` document as read by `aggregateDailyHealthMetrics`. -/
structure TelemetryEvent where
  eventType : String
  eventDuration : ℚ
deriving DecidableEq

/-- The `rhythmMap` record written by `aggregateDailyHealthMetrics`
(computed fields only). -/
structure RhythmMap where
  sleepHours : ℚ
  movementScore : ℚ
  rhythmState : String
  deepSleepMinutes : ℚ
  restfulnessScore : ℚ
deriving DecidableEq

/-- The rhythm-state chain of `aggregateDailyHealthMetrics`: "Off-Rhythm"
when `sleepHours < 6` or `movementScore < 20`, else "Overstimulated" when
`movementScore > 80` and more than 100 motion events, else "Stable". -/
def rhythmStateOf (sleepHours movementScore : ℚ) (motionEvents : ℕ) : String :=
  if sleepHours < 6 ∨ movementScore < 20 then "Off-Rhythm"
  else if movementScore > 80 ∧ motionEvents > 100 then "Overstimulated"
  else "Stable"

/-- Per-user body of the `aggregateDailyHealthMetrics` scheduled job, RhythmMap
part: skip the user when the telemetry window is empty; otherwise total the
motion-event durations and count motion events; the sleep markers are
initialized to `none` and never assigned in the event loop, so `sleepHours`
takes the default branch. -/
def aggregateDailyHealthMetricsForUser (events : List TelemetryEvent) : Option RhythmMap :=
  if events.isEmpty then none
  else
    let motionList := events.filter (·.eventType = "motion_event")
    let totalMovement := (motionList.map (·.eventDuration)).sum
    let motionEvents := motionList.length
    let sleepStart : Option ℚ := none
    let sleepEnd : Option ℚ := none
    let movementScore := min 100 (totalMovement / 60)
    let sleepHours : ℚ :=
      match sleepStart, sleepEnd with
      | some s, some e => (e - s) / (1000 * 60 * 60)
      | _, _ => 8
    some { sleepHours := sleepHours
           movementScore := movementScore
           rhythmState := rhythmStateOf sleepHours movementScore motionEvents
           deepSleepMinutes := sleepHours * 60 * 0.2
           restfulnessScore := min 100 (sleepHours * 12.5) }

/-- C2: whenever `sleepHours < 6` or `movementScore < 20`, the classification
is "Off-Rhythm" regardless of the Overstimulated inputs, because that branch
is checked first. -/
theorem rhythmState_offRhythm_first (sleepHours movementScore : ℚ) (motionEvents : ℕ)
    (h : sleepHours < 6 ∨ movementScore < 20) :
    rhythmStateOf sleepHours movementScore motionEvents = "Off-Rhythm" := by
  unfold rhythmStateOf
  rw [if_pos h]

/-- Witness for `rhythmState_offRhythm_first`: low sleep together with inputs
that would otherwise classify as "Overstimulated". -/
theorem rhythmState_offRhythm_first_witness :
    ((5 : ℚ) < 6 ∨ (90 : ℚ) < 20) ∧ rhythmStateOf 5 90 200 = "Off-Rhythm" :=
  ⟨Or.inl (by norm_num), rhythmState_offRhythm_first 5 90 200 (Or.inl (by norm_num))⟩

/-- C9: every RhythmMap the daily aggregator writes has `sleepHours = 8`
(the sleep markers are never assigned), `restfulnessScore = 100`, and is
classified "Off-Rhythm" exactly when its movement score is below 20. -/
theorem rhythmMap_sleep_default (events : List TelemetryEvent) (rm : RhythmMap)
    (h : aggregateDailyHealthMetricsForUser events = some rm) :
    rm.sleepHours = 8 ∧ rm.restfulnessScore = 100 ∧
      (rm.rhythmState = "Off-Rhythm" ↔ rm.movementScore < 20) := by
  unfold aggregateDailyHealthMetricsForUser at h
  split_ifs at h with he
  injection h with h
  subst h
  refine ⟨rfl, ?_, ?_⟩
  · show min 100 ((8 : ℚ) * 12.5) = 100
    norm_num
  · show rhythmStateOf 8 _ _ = "Off-Rhythm" ↔ _
    unfold rhythmStateOf
    by_cases hms :
        min 100 (((events.filter (·.eventType = "motion_event")).map
          (·.eventDuration)).sum / 60) < 20
    · rw [if_pos (Or.inr hms)]
      simpa using hms
    · rw [if_neg (by push_neg; exact ⟨by norm_num, not_lt.mp hms⟩)]
      split_ifs <;> simpa using hms

/-- Witness for `rhythmMap_sleep_default` on one motion event of 600 s. -/
theorem rhythmMap_sleep_default_witness :
    (⟨8, 10, "Off-Rhythm", 96, 100⟩ : RhythmMap).sleepHours = 8 ∧
      (⟨8, 10, "Off-Rhythm", 96, 100⟩ : RhythmMap).restfulnessScore = 100 ∧
      ((⟨8, 10, "Off-Rhythm", 96, 100⟩ : RhythmMap).rhythmState = "Off-Rhythm" ↔
        (⟨8, 10, "Off-Rhythm", 96, 100⟩ : RhythmMap).movementScore < 20) :=
  rhythmMap_sleep_default [⟨"motion_event", 600⟩] ⟨8, 10, "Off-Rhythm", 96, 100⟩ (by
    unfold aggregateDailyHealthMetricsForUser
    norm_num [List.filter, rhythmStateOf, min_def])

/-- Per-user inputs of one `generateCognitiveMirror` run; `fails` marks a user
whose processing (fetch or write) throws an exception. -/
structure UserMirrorInput where
  fails : Bool
  voiceEvents : List VoiceEvent
  device : Option DeviceSignal
  shadow : Option ShadowCognition
  rhythm : Option RhythmRecord
deriving DecidableEq

/-- The user loop of the `generateCognitiveMirror` job.  In the source the
`try`/`catch` wraps the whole `for` loop, not the per-user body: an exception
thrown while processing one user propagates out of the loop to the job-level
catch, so the users after it produce no records; records already written
(awaited one user at a time) persist. -/
def generateCognitiveMirrorRun : List UserMirrorInput → List CognitiveMirror
  | [] => []
  | u :: rest =>
    if u.fails then []
    else
      generateCognitiveMirrorForUser u.voiceEvents u.device u.shadow u.rhythm ::
        generateCognitiveMirrorRun rest

/-- C8 counterexample: a run over two users whose first throws writes no
record at all — in particular none for the second (non-failing) user — while
the same second user alone does produce a record. -/
theorem failing_user_aborts_rest :
    generateCognitiveMirrorRun [⟨true, [], none, none, none⟩, ⟨false, [], none, none, none⟩] = []
      ∧ generateCognitiveMirrorRun [⟨false, [], none, none, none⟩] ≠ [] := by
  constructor
  · rfl
  · simp [generateCognitiveMirrorRun]

/-- C8 amended: an exception while processing one user is caught and logged at
the job level, but it ends the whole run: exactly the users before the first
failing one get records, and the users after it get none. -/
theorem run_stops_at_first_failure (pre post : List UserMirrorInput)
    (u : UserMirrorInput) (hpre : ∀ v ∈ pre, v.fails = false) (hu : u.fails = true) :
    generateCognitiveMirrorRun (pre ++ u :: post) =
      pre.map (fun v => generateCognitiveMirrorForUser v.voiceEvents v.device v.shadow v.rhythm) := by
  induction pre with
  | nil =>
    simp only [List.nil_append, List.map_nil]
    unfold generateCognitiveMirrorRun
    rw [if_pos hu]
  | cons v vs ih =>
    have hv : v.fails = false := hpre v (List.mem_cons_self v vs)
    simp only [List.cons_append, List.map_cons]
    unfold generateCognitiveMirrorRun
    rw [if_neg (by simp [hv])]
    exact congrArg _ (ih fun w hw => hpre w (List.mem_cons_of_mem v hw))

/-- Witness for `run_stops_at_first_failure`: one successful user before the
failing one, one (skipped) user after it. -/
theorem run_stops_at_first_failure_witness :
    generateCognitiveMirrorRun
        [⟨false, [], none, none, none⟩, ⟨true, [], none, none, none⟩,
          ⟨false, [], none, none, none⟩] =
      [generateCognitiveMirrorForUser [] none none none] :=
  run_stops_at_first_failure [⟨false, [], none, none, none⟩]
    [⟨false, [], none, none, none⟩] ⟨true, [], none, none, none⟩
    (by intro v hv; simp only [List.mem_singleton] at hv; subst hv; rfl) rfl

/-- A `cognitiveMirror` history record read by `generateEmotionForecast`;
`date` is modelled as an epoch-day number. -/
structure MirrorHistoryRec where
  date : ℤ
  moodScore : ℚ
  stressIndex : ℚ
deriving DecidableEq

/-- The `emotionForecast` record written by `generateEmotionForecast`
(computed fields only; `date` is the epoch-day of the target day). -/
structure EmotionForecast where
  date : ℤ
  predictedMood : String
  confidence : ℚ
  predictionHorizonDays : ℕ
  influencingFactors : List String
  recommendedActions : List String
deriving DecidableEq

/-- JavaScript `Date.getDay` on an epoch-day number (day 0, 1970-01-01, was
a Thursday, weekday 4). -/
def dayOfWeek (d : ℤ) : ℤ := (d + 4) % 7

/-- Per-user body of the `generateEmotionForecast` scheduled job: skip users
with fewer than 7 history records in the trailing 30-day window; otherwise
classify by the day-of-week seasonal average, then apply the trend
adjustment (an if/else-if, so at most one `+0.1`), and emit one forecast
keyed to tomorrow.  `history` is ordered by date descending (index 0 = most
recent). -/
def generateEmotionForecastForUser (today : ℤ) (history : List MirrorHistoryRec) :
    Option EmotionForecast :=
  if history.length < 7 then none
  else
    let recentWeek := history.take 7
    let avgRecentStress := ((recentWeek.map (·.stressIndex)).sum) / (recentWeek.length : ℚ)
    let sameDayHistory := history.filter fun r => dayOfWeek r.date = (dayOfWeek today + 1) % 7
    let avgSameDayMood :=
      ((sameDayHistory.take 4).map (·.moodScore)).sum / ((min 4 sameDayHistory.length : ℕ) : ℚ)
    let predictedMood0 : String :=
      if sameDayHistory.length > 2 then
        if avgSameDayMood > 70 then "positive"
        else if avgSameDayMood < 40 then "challenging"
        else "stable"
      else "stable"
    let confidence0 : ℚ :=
      if sameDayHistory.length > 2 then
        if avgSameDayMood > 70 then 0.75
        else if avgSameDayMood < 40 then 0.7
        else 0.6
      else 0.6
    let trendSlope :=
      ((recentWeek.getD 0 ⟨0, 0, 0⟩).moodScore - (recentWeek.getD 6 ⟨0, 0, 0⟩).moodScore) / 6
    let predictedMood :=
      if trendSlope > 5 then (if predictedMood0 = "challenging" then "stable" else "positive")
      else if trendSlope < -5 then
        (if predictedMood0 = "positive" then "stable" else "challenging")
      else predictedMood0
    let confidence :=
      if trendSlope > 5 then confidence0 + 0.1
      else if trendSlope < -5 then confidence0 + 0.1
      else confidence0
    let influencingFactors :=
      (if avgRecentStress > 60 then ["elevated stress patterns"] else [])
      ++ (if trendSlope > 5 then ["improving mood trend"]
          else if trendSlope < -5 then ["declining mood trend"]
          else [])
    let recommendedActions :=
      if predictedMood = "challenging" then
        ["Consider extra self-care tomorrow", "Schedule lighter activities if possible"]
      else if predictedMood = "positive" then
        ["Good day to tackle challenging tasks", "Consider connecting with friends"]
      else []
    some { date := today + 1
           predictedMood := predictedMood
           confidence := ((round (confidence * 100) : ℤ) : ℚ) / 100
           predictionHorizonDays := 1
           influencingFactors := influencingFactors
           recommendedActions := recommendedActions }

/-- C4: every emitted forecast confidence is one of
`0.6, 0.7, 0.75, 0.8, 0.85` — the seasonal base is in `{0.6, 0.7, 0.75}` and
the trend adjustment is an if/else-if, so at most one `+0.1` is added — and
hence lies in `[0.6, 0.85] ⊆ [0, 1]`. -/
theorem forecast_confidence_range (today : ℤ) (history : List MirrorHistoryRec)
    (f : EmotionForecast) (h : generateEmotionForecastForUser today history = some f) :
    (f.confidence = 0.6 ∨ f.confidence = 0.7 ∨ f.confidence = 0.75 ∨
        f.confidence = 0.8 ∨ f.confidence = 0.85) ∧
      0.6 ≤ f.confidence ∧ f.confidence ≤ 0.85 ∧ 0 ≤ f.confidence ∧ f.confidence ≤ 1 := by
  unfold generateEmotionForecastForUser at h
  split_ifs at h with hlen
  injection h with h
  subst h
  simp only
  split_ifs <;> norm_num [round_eq]

/-- Witness for `forecast_confidence_range` on a flat 7-day history. -/
theorem forecast_confidence_range_witness :
    (((⟨1, "stable", 3/5, 1, [], []⟩ : EmotionForecast).confidence = 0.6 ∨
        (⟨1, "stable", 3/5, 1, [], []⟩ : EmotionForecast).confidence = 0.7 ∨
        (⟨1, "stable", 3/5, 1, [], []⟩ : EmotionForecast).confidence = 0.75 ∨
        (⟨1, "stable", 3/5, 1, [], []⟩ : EmotionForecast).confidence = 0.8 ∨
        (⟨1, "stable", 3/5, 1, [], []⟩ : EmotionForecast).confidence = 0.85) ∧
      0.6 ≤ (⟨1, "stable", 3/5, 1, [], []⟩ : EmotionForecast).confidence ∧
      (⟨1, "stable", 3/5, 1, [], []⟩ : EmotionForecast).confidence ≤ 0.85 ∧
      0 ≤ (⟨1, "stable", 3/5, 1, [], []⟩ : EmotionForecast).confidence ∧
      (⟨1, "stable", 3/5, 1, [], []⟩ : EmotionForecast).confidence ≤ 1) :=
  forecast_confidence_range 0 (List.replicate 7 ⟨0, 50, 50⟩) ⟨1, "stable", 3/5, 1, [], []⟩ (by
    unfold generateEmotionForecastForUser
    norm_num [List.replicate, dayOfWeek, List.filter, min_def, round_eq]
    simp)

/-- C5: the Forecast Engine skips a user (emits nothing) exactly when the
trailing window holds fewer than 7 CognitiveMirror records, and any emitted
forecast is keyed to tomorrow's date. -/
theorem forecast_skip_iff (today : ℤ) (history : List MirrorHistoryRec) :
    (generateEmotionForecastForUser today history = none ↔ history.length < 7) ∧
      ∀ f, generateEmotionForecastForUser today history = some f → f.date = today + 1 := by
  constructor
  · unfold generateEmotionForecastForUser
    split_ifs with hlen <;> simp [hlen]
  · intro f h
    unfold generateEmotionForecastForUser at h
    split_ifs at h with hlen
    injection h with h
    subst h
    rfl

/-- Witness for `forecast_skip_iff`: a 6-record history is skipped. -/
theorem forecast_skip_iff_witness :
    generateEmotionForecastForUser 0 (List.replicate 6 ⟨0, 50, 50⟩) = none :=
  (forecast_skip_iff 0 (List.replicate 6 ⟨0, 50, 50⟩)).1.mpr (by simp)

/-- The Life Event detector's per-user decision (from `detectLifeEvents`):
flag an event when `|moodShift| > 25` or `|stressShift| > 20`, and classify
the flagged event by the fixed if/else-if chain; `none` means no event is
written. -/
def classifyLifeEvent (moodShift stressShift : ℚ) : Option String :=
  if |moodShift| > 25 ∨ |stressShift| > 20 then
    some (if moodShift > 25 ∧ stressShift < -15 then "positive_life_change"
      else if moodShift < -25 ∧ stressShift > 15 then "challenging_life_event"
      else if |stressShift| > 25 then "major_stress_shift"
      else if |moodShift| > 30 then "significant_mood_change"
      else "unknown_transition")
  else none

/-- C6: the detector flags exactly when `|moodShift| > 25 ∨ |stressShift| > 20`,
each category is reached exactly by first-match priority
(positive → challenging → major_stress → significant_mood → unknown), and at
`moodShift = 26, stressShift = 16` the priority order yields
`unknown_transition`. -/
theorem lifeEvent_classification (m s : ℚ) :
    (classifyLifeEvent m s ≠ none ↔ (|m| > 25 ∨ |s| > 20))
    ∧ (classifyLifeEvent m s = some "positive_life_change" ↔ (m > 25 ∧ s < -15))
    ∧ (classifyLifeEvent m s = some "challenging_life_event" ↔ (m < -25 ∧ s > 15))
    ∧ (classifyLifeEvent m s = some "major_stress_shift" ↔
        (¬(m > 25 ∧ s < -15) ∧ ¬(m < -25 ∧ s > 15) ∧ |s| > 25))
    ∧ (classifyLifeEvent m s = some "significant_mood_change" ↔
        (¬(m > 25 ∧ s < -15) ∧ ¬(m < -25 ∧ s > 15) ∧ ¬(|s| > 25) ∧ |m| > 30))
    ∧ classifyLifeEvent 26 16 = some "unknown_transition" := by
  unfold classifyLifeEvent
  refine ⟨?_, ?_, ?_, ?_, ?_, ?_⟩
  · constructor
    · intro hcl
      by_cases hf : |m| > 25 ∨ |s| > 20
      · exact hf
      · rw [if_neg hf] at hcl; exact absurd rfl hcl
    · intro hf
      rw [if_pos hf]; simp
  · constructor
    · intro hcl
      by_cases hf : |m| > 25 ∨ |s| > 20
      · rw [if_pos hf] at hcl
        injection hcl with hcl
        by_cases h1 : m > 25 ∧ s < -15
        · exact h1
        · rw [if_neg h1] at hcl
          split_ifs at hcl <;> simp_all
      · rw [if_neg hf] at hcl; simp at hcl
    · rintro ⟨h1, h2⟩
      rw [if_pos (Or.inl (lt_of_lt_of_le h1 (le_abs_self m))), if_pos ⟨h1, h2⟩]
  · constructor
    · intro hcl
      by_cases hf : |m| > 25 ∨ |s| > 20
      · rw [if_pos hf] at hcl
        injection hcl with hcl
        by_cases h1 : m > 25 ∧ s < -15
        · rw [if_pos h1] at hcl; simp at hcl
        · rw [if_neg h1] at hcl
          by_cases h2 : m < -25 ∧ s > 15
          · exact h2
          · rw [if_neg h2] at hcl
            split_ifs at hcl <;> simp_all
      · rw [if_neg hf] at hcl; simp at hcl
    · rintro ⟨h1, h2⟩
      have hm : |m| > 25 := lt_of_lt_of_le (by linarith) (neg_le_abs m)
      rw [if_pos (Or.inl hm), if_neg (fun hc => absurd hc.1 (by linarith)),
        if_pos ⟨h1, h2⟩]
  · constructor
    · intro hcl
      by_cases hf : |m| > 25 ∨ |s| > 20
      · rw [if_pos hf] at hcl
        injection hcl with hcl
        by_cases h1 : m > 25 ∧ s < -15
        · rw [if_pos h1] at hcl; simp at hcl
        · rw [if_neg h1] at hcl
          by_cases h2 : m < -25 ∧ s > 15
          · rw [if_pos h2] at hcl; simp at hcl
          · rw [if_neg h2] at hcl
            by_cases h3 : |s| > 25
            · exact ⟨h1, h2, h3⟩
            · rw [if_neg h3] at hcl
              split_ifs at hcl <;> simp_all
      · rw [if_neg hf] at hcl; simp at hcl
    · rintro ⟨h1, h2, h3⟩
      rw [if_pos (Or.inr (by linarith)), if_neg h1, if_neg h2, if_pos h3]
  · constructor
    · intro hcl
      by_cases hf : |m| > 25 ∨ |s| > 20
      · rw [if_pos hf] at hcl
        injection hcl with hcl
        by_cases h1 : m > 25 ∧ s < -15
        · rw [if_pos h1] at hcl; simp at hcl
        · rw [if_neg h1] at hcl
          by_cases h2 : m < -25 ∧ s > 15
          · rw [if_pos h2] at hcl; simp at hcl
          · rw [if_neg h2] at hcl
            by_cases h3 : |s| > 25
            · rw [if_pos h3] at hcl; simp at hcl
            · rw [if_neg h3] at hcl
              by_cases h4 : |m| > 30
              · exact ⟨h1, h2, h3, h4⟩
              · rw [if_neg h4] at hcl; simp at hcl
      · rw [if_neg hf] at hcl; simp at hcl
    · rintro ⟨h1, h2, h3, h4⟩
      rw [if_pos (Or.inl (by linarith)), if_neg h1, if_neg h2, if_neg h3, if_pos h4]
  · have h26 : |(26 : ℚ)| = 26 := abs_of_pos (by norm_num)
    have h16 : |(16 : ℚ)| = 16 := abs_of_pos (by norm_num)
    rw [if_pos (Or.inl (by rw [h26]; norm_num)),
      if_neg (fun hc => absurd hc.2 (by norm_num)),
      if_neg (fun hc => absurd hc.1 (by norm_num)),
      if_neg (by rw [h16]; norm_num), if_neg (by rw [h26]; norm_num)]

/-- Witness for `lifeEvent_classification`: a large positive mood shift with
a large stress drop classifies as `positive_life_change`. -/
theorem lifeEvent_classification_witness :
    classifyLifeEvent 26 (-16) = some "positive_life_change" :=
  (lifeEvent_classification 26 (-16)).2.1.mpr ⟨by norm_num, by norm_num⟩

/-- Daily mood/stress scores of a `cognitiveMirror` record as read by
`detectBehavioralRecovery` (window ordered by date ascending; the last entry
is the current record). -/
structure MirrorScore where
  moodScore : ℚ
  stressIndex : ℚ
deriving DecidableEq

/-- The combined score `moodScore - stressIndex` (higher is better). -/
def combined (r : MirrorScore) : ℚ := r.moodScore - r.stressIndex

/-- The `reduce` callback of `detectBehavioralRecovery`: keep the index of
the strictly smaller combined score (ties keep the earlier index). -/
def argminStep (scores : List ℚ) (minIdx idx : ℕ) : ℕ :=
  if scores.getD idx 0 < scores.getD minIdx 0 then idx else minIdx

/-- `dailyScores.reduce((minIdx, current, idx) => ..., 0)`: index of the first
minimum combined score. -/
def lowestIndexOf (scores : List ℚ) : ℕ :=
  (List.range scores.length).foldl (argminStep scores) 0

/-- Per-record body of the `detectBehavioralRecovery` trigger: `true` exactly
when a recovery record is written for the trailing window `records`. -/
def detectBehavioralRecovery (records : List MirrorScore) : Bool :=
  if records.length < 3 then false
  else
    let dailyScores := records.map combined
    let lowestIndex := lowestIndexOf dailyScores
    if lowestIndex < dailyScores.length - 1 then
      let lowestScore := dailyScores.getD lowestIndex 0
      let currentScore := dailyScores.getD (dailyScores.length - 1) 0
      let improvement := currentScore - lowestScore
      if improvement > 30 ∧ lowestScore < 20 then true else false
    else false

/-- Invariant of the argmin fold: the result is the start index or one of the
visited indices, and its value is a lower bound for the start index's value
and every visited index's value. -/
theorem foldl_argmin_spec (l : List ℚ) (idxs : List ℕ) (b : ℕ) :
    (idxs.foldl (argminStep l) b = b ∨ idxs.foldl (argminStep l) b ∈ idxs)
    ∧ l.getD (idxs.foldl (argminStep l) b) 0 ≤ l.getD b 0
    ∧ ∀ i ∈ idxs, l.getD (idxs.foldl (argminStep l) b) 0 ≤ l.getD i 0 := by
  induction idxs generalizing b with
  | nil => exact ⟨Or.inl rfl, le_refl _, by simp⟩
  | cons a as ih =>
    obtain ⟨hmem, hle, hall⟩ := ih (argminStep l b a)
    rw [List.foldl_cons]
    have hstep_le_b : l.getD (argminStep l b a) 0 ≤ l.getD b 0 := by
      unfold argminStep
      split_ifs with h
      · exact le_of_lt h
      · exact le_refl _
    have hstep_le_a : l.getD (argminStep l b a) 0 ≤ l.getD a 0 := by
      unfold argminStep
      split_ifs with h
      · exact le_refl _
      · exact not_lt.mp h
    refine ⟨?_, le_trans hle hstep_le_b, ?_⟩
    · rcases hmem with h | h
      · rw [h]
        unfold argminStep
        split_ifs
        · exact Or.inr (List.mem_cons_self a as)
        · exact Or.inl rfl
      · exact Or.inr (List.mem_cons_of_mem a h)
    · intro i hi
      rcases List.mem_cons.mp hi with rfl | hi'
      · exact le_trans hle hstep_le_a
      · exact hall i hi'

/-- The reduce-computed index is in range (for a nonempty list). -/
theorem lowestIndexOf_lt_length (l : List ℚ) (hl : l ≠ []) :
    lowestIndexOf l < l.length := by
  obtain ⟨hmem, -, -⟩ := foldl_argmin_spec l (List.range l.length) 0
  rcases hmem with h | h
  · rw [lowestIndexOf, h]
    exact List.length_pos.mpr hl
  · exact List.mem_range.mp h

/-- The value at the reduce-computed index is a lower bound of all values. -/
theorem lowestIndexOf_is_min (l : List ℚ) :
    ∀ i < l.length, l.getD (lowestIndexOf l) 0 ≤ l.getD i 0 := by
  obtain ⟨-, -, hall⟩ := foldl_argmin_spec l (List.range l.length) 0
  intro i hi
  exact hall i (List.mem_range.mpr hi)

/-- `getD` at the last position agrees with `getLast?`. -/
theorem getD_length_sub_one (l : List ℚ) (c : ℚ) (h : l.getLast? = some c) :
    l.getD (l.length - 1) 0 = c := by
  induction l with
  | nil => simp at h
  | cons a as ih =>
    cases as with
    | nil =>
      simp only [List.getLast?_singleton, Option.some.injEq] at h
      simp [h]
    | cons b bs =>
      rw [List.getLast?_cons_cons] at h
      have hrec := ih h
      have hidx : (a :: b :: bs).length - 1 = (b :: bs).length - 1 + 1 := by
        simp only [List.length_cons]
        omega
      rw [hidx, List.getD_cons_succ, hrec]

/-- The value at the reduce-computed index equals any minimum of the list. -/
theorem lowestIndexOf_getD_eq_min (l : List ℚ) (m : ℚ) (hne : l ≠ [])
    (hmem : m ∈ l) (hmin : ∀ x ∈ l, m ≤ x) :
    l.getD (lowestIndexOf l) 0 = m := by
  have hlt := lowestIndexOf_lt_length l hne
  refine le_antisymm ?_ ?_
  · obtain ⟨i, hi, rfl⟩ := List.getElem_of_mem hmem
    rw [← List.getD_eq_getElem l 0 hi]
    exact lowestIndexOf_is_min l i hi
  · refine hmin _ ?_
    rw [List.getD_eq_getElem l 0 hlt]
    exact List.getElem_mem hlt

/-- C3: given a trailing window of at least 3 records, a recovery record is
written if and only if the combined-score improvement from the trough (the
minimum combined score `m` of the window) to the current (last) record is
strictly greater than 30 AND the trough's combined score is strictly below
20. -/
theorem detectBehavioralRecovery_iff (records : List MirrorScore)
    (h3 : 3 ≤ records.length) (m cur : ℚ)
    (hmem : m ∈ records.map combined)
    (hmin : ∀ x ∈ records.map combined, m ≤ x)
    (hcur : (records.map combined).getLast? = some cur) :
    detectBehavioralRecovery records = true ↔ (cur - m > 30 ∧ m < 20) := by
  have hlen : (records.map combined).length = records.length := List.length_map _ _
  have hne : records.map combined ≠ [] := by
    intro hc
    rw [hc] at hlen
    simp at hlen
    omega
  have hmval : (records.map combined).getD (lowestIndexOf (records.map combined)) 0 = m :=
    lowestIndexOf_getD_eq_min _ m hne hmem hmin
  have hcurval : (records.map combined).getD ((records.map combined).length - 1) 0 = cur :=
    getD_length_sub_one _ cur hcur
  have hlt := lowestIndexOf_lt_length _ hne
  simp only [detectBehavioralRecovery]
  rw [if_neg (by omega : ¬records.length < 3)]
  by_cases hidx : lowestIndexOf (records.map combined) < (records.map combined).length - 1
  · rw [if_pos hidx, hmval, hcurval]
    split_ifs with hc
    · simp [hc]
    · simp [hc]
  · rw [if_neg hidx]
    constructor
    · intro h
      simp at h
    · rintro ⟨h1, h2⟩
      have heq : lowestIndexOf (records.map combined) = (records.map combined).length - 1 := by
        omega
      rw [heq, hcurval] at hmval
      rw [hmval] at h1
      norm_num at h1

/-- Witness for `detectBehavioralRecovery_iff`: trough `-10`, current `45`,
improvement `55 > 30` with trough `< 20`, so a recovery is flagged. -/
theorem detectBehavioralRecovery_iff_witness :
    detectBehavioralRecovery [⟨10, 20⟩, ⟨0, 10⟩, ⟨50, 5⟩] = true :=
  (detectBehavioralRecovery_iff [⟨10, 20⟩, ⟨0, 10⟩, ⟨50, 5⟩] (by norm_num) (-10) 45
    (by norm_num [combined])
    (by
      intro x hx
      simp only [List.map_cons, List.map_nil, List.mem_cons, List.not_mem_nil, or_false,
        combined] at hx
      rcases hx with rfl | rfl | rfl <;> norm_num)
    (by norm_num [combined, List.getLast?_cons_cons])).mpr (by norm_num)

end LifeLogger
